import Mathlib

/-!
Verification of the airport proximity engine in `aeroports_proximite.py`
(repository SebInfo/AeroportsProches).

The Python module loads a CSV of airports into a pandas/geopandas data
frame (module-level code, lines 11-21), exposes `get_airport_info`
(lines 23-37) for lookup by ICAO code, and `find_nearby_airports`
(lines 39-56) which writes a `distance` column into the shared global
`airports` frame and returns the `max_results` rows of smallest distance
after excluding one code and optionally filtering by type.

Embedding choices:
* A data-frame row is a structure; a data frame is a `List` of rows.
* the shapely `Point(lon, lat)` is a pair `(x, y) = (lon, lat)` of `ℚ`;
  Python floats are modelled as rationals.
* the shapely `Point.distance` is the planar Euclidean distance
  `Real.sqrt ((x₁-x₂)^2 + (y₁-y₂)^2)`.  To keep the development
  executable, the engine stores the SQUARE of each distance
  (`sqDist`, a rational) as the `distance` column; `Real.sqrt` is
  strictly monotone on nonnegatives (`pointDistance_le_pointDistance`),
  so ranking, filtering and truncation by the squared distance coincide
  exactly with ranking by the true distance, and the true distance is
  recovered by `pointDistance`.
* pandas `nsmallest(n, "distance")` with the default `keep="first"` is
  a stable ascending sort by the column followed by taking the first
  `n` rows: `List.mergeSort` (stable) followed by `List.take`.
* The in-place column assignment `airports["distance"] = ...` is
  modelled by explicit state passing: the global frame is an
  `AirportsState` holding the rows and the (initially absent) distance
  column, and `find_nearby_airports` returns both its result and the
  updated state.
-/

/-- One row of the filtered data frame built on lines 14-18:
columns `code_oaci` (renamed from `ident`), `name`, `type`, `lat`
(renamed from `latitude_deg`), `lon` (renamed from `longitude_deg`),
`iso_country`, and the `geometry` column `Point(lon, lat)`. -/
structure Airport where
  code_oaci : String
  name : String
  type : String
  lat : ℚ
  lon : ℚ
  iso_country : String
  geometry : ℚ × ℚ
deriving DecidableEq

/-- One row of the raw CSV as read on line 11, restricted to the six
columns selected on line 14. -/
structure CsvRow where
  ident : String
  name : String
  type : String
  latitude_deg : ℚ
  longitude_deg : ℚ
  iso_country : String
deriving DecidableEq

/-- The module-level load (lines 11-21): select the six columns, rename
`ident → code_oaci`, `latitude_deg → lat`, `longitude_deg → lon`, and
build the `geometry` column as `Point(lon, lat)`.  No row is dropped,
no field is trimmed, uppercased or otherwise normalized. -/
def load_airports (df : List CsvRow) : List Airport :=
  df.map fun r =>
    { code_oaci := r.ident
      name := r.name
      type := r.type
      lat := r.latitude_deg
      lon := r.longitude_deg
      iso_country := r.iso_country
      geometry := (r.longitude_deg, r.latitude_deg) }

/-- The global `airports` frame together with its `distance` column.
After the load (line 21) the column is absent (`none`); each call to
`find_nearby_airports` overwrites it (line 49). -/
structure AirportsState where
  rows : List Airport
  distance_col : Option (List ℚ)
deriving DecidableEq

/-- The loaded global state: `airports` as produced on line 21, with no
`distance` column yet. -/
def initial_state (df : List CsvRow) : AirportsState :=
  { rows := load_airports df, distance_col := none }

/-- The result type of `get_airport_info`: the dictionary built on
lines 33-37. -/
structure AirportInfo where
  name : String
  type : String
  geometry : ℚ × ℚ
deriving DecidableEq

/-- Function `get_airport_info` (lines 23-37): select the rows whose `code_oaci`
equals the argument; if none, return `None`; otherwise return the
dictionary of the first such row (`iloc[0]`). -/
def get_airport_info (airports : List Airport) (code_oaci : String) :
    Option AirportInfo :=
  match airports.filter (fun a => decide (a.code_oaci = code_oaci)) with
  | [] => none
  | a :: _ => some { name := a.name, type := a.type, geometry := a.geometry }

/-- Square of the shapely planar Euclidean point distance, on
`(x, y) = (lon, lat)` pairs. -/
def sqDist (g1 g2 : ℚ × ℚ) : ℚ :=
  (g1.1 - g2.1) * (g1.1 - g2.1) + (g1.2 - g2.2) * (g1.2 - g2.2)

/-- The shapely `Point.distance`: the planar Euclidean distance between
two `(x, y) = (lon, lat)` points, used to fill the `distance` column on
line 49. -/
noncomputable def pointDistance (g1 g2 : ℚ × ℚ) : ℝ :=
  Real.sqrt ((sqDist g1 g2 : ℚ) : ℝ)

/-- pandas `nsmallest(n, column)` with the default `keep="first"`:
stable ascending sort by the key, then the first `n` rows.  Here the
rows are `(Airport, ℚ)` pairs carrying their `distance` column value. -/
def nsmallest (n : ℕ) (l : List (Airport × ℚ)) : List (Airport × ℚ) :=
  (l.mergeSort (fun a b => decide (a.2 ≤ b.2))).take n

/-- Function `find_nearby_airports` (lines 39-56), with the in-place write of the
`distance` column made explicit as a state update:
1. line 49: `airports["distance"] = airports["geometry"].distance(geometry)`
   — pair every row with its distance to the reference and overwrite the
   shared column;
2. line 50: drop the rows whose `code_oaci` equals `exclude_oaci`;
3. lines 53-54: if `selected_type` is not `"all"`, keep only the rows of
   that type;
4. line 56: `nsmallest(max_results, "distance")`.
Returns the result rows (each with its distance value) and the mutated
global state. -/
def find_nearby_airports (s : AirportsState) (geometry : ℚ × ℚ)
    (selected_type : String) (exclude_oaci : String)
    (max_results : ℕ := 4) : List (Airport × ℚ) × AirportsState :=
  let withDist := s.rows.map fun a => (a, sqDist a.geometry geometry)
  let s' : AirportsState :=
    { rows := s.rows, distance_col := some (withDist.map (·.2)) }
  let filtered_airports :=
    withDist.filter (fun p => decide (¬ p.1.code_oaci = exclude_oaci))
  let filtered_airports2 :=
    if selected_type = "all" then filtered_airports
    else filtered_airports.filter (fun p => decide (p.1.type = selected_type))
  (nsmallest max_results filtered_airports2, s')

/-- The two filters of lines 50-54 collapsed into one candidate
predicate: a row is a candidate iff its `code_oaci` is not the excluded
one, and either the selected type is the wildcard `"all"` or the `type`
field of the row matches it. -/
def qualifies (a : Airport) (selected_type exclude_oaci : String) : Bool :=
  decide (¬ a.code_oaci = exclude_oaci) &&
    (decide (selected_type = "all") || decide (a.type = selected_type))

/-- The distance formula as the spec words it: planar Euclidean distance
on the raw `(lat, lon)` degree values treated as Cartesian coordinates,
`sqrt ((lat1 - lat2)^2 + (lon1 - lon2)^2)`. -/
noncomputable def spec_planar_distance (lat1 lon1 lat2 lon2 : ℚ) : ℝ :=
  Real.sqrt ((((lat1 - lat2) ^ 2 + (lon1 - lon2) ^ 2 : ℚ) : ℝ))

/-- The three-airport collection of spec §8, Scenario 1:
`A(large, 0, 0)`, `B(medium, 0, 1)`, `C(large, 0, 2)` (lat, lon). -/
def sampleState : AirportsState :=
  { rows :=
      [⟨"AAA", "A", "large_airport", 0, 0, "FR", (0, 0)⟩,
       ⟨"BBB", "B", "medium_airport", 0, 1, "FR", (1, 0)⟩,
       ⟨"CCC", "C", "large_airport", 0, 2, "FR", (2, 0)⟩],
    distance_col := none }

/-- A one-airport collection, for evaluating queries with degenerate
inputs. -/
def tinyState : AirportsState :=
  { rows := [⟨"AAA", "A", "large_airport", 0, 0, "FR", (0, 0)⟩],
    distance_col := none }

unseal List.merge List.mergeSort Rat.add Rat.mul Rat.sub in
/-- Sanity evaluation: spec paragraph 8, Scenario 1 — from the position
of `A`, wildcard filter, excluding `A`, the query returns `B` at
(squared) distance 1 then `C` at squared distance 4, and writes the
distance column into the global frame. -/
theorem scenario1_evaluation :
    find_nearby_airports
      { rows := load_airports
          [⟨"AAA", "A", "large_airport", 0, 0, "FR"⟩,
           ⟨"BBB", "B", "medium_airport", 0, 1, "FR"⟩,
           ⟨"CCC", "C", "large_airport", 0, 2, "FR"⟩],
        distance_col := none }
      (0, 0) "all" "AAA" 4
    = ([(⟨"BBB", "B", "medium_airport", 0, 1, "FR", (1, 0)⟩, 1),
        (⟨"CCC", "C", "large_airport", 0, 2, "FR", (2, 0)⟩, 4)],
       { rows := load_airports
           [⟨"AAA", "A", "large_airport", 0, 0, "FR"⟩,
            ⟨"BBB", "B", "medium_airport", 0, 1, "FR"⟩,
            ⟨"CCC", "C", "large_airport", 0, 2, "FR"⟩],
         distance_col := some [0, 1, 4] }) := by
  decide

/-- The query leaves the rows of the global frame unchanged; only the
`distance` column is written. -/
theorem find_nearby_airports_rows (s : AirportsState) (g : ℚ × ℚ)
    (t e : String) (n : ℕ) :
    (find_nearby_airports s g t e n).2.rows = s.rows := rfl

/-- The query overwrites the `distance` column of the global frame with
the distances from every row to the reference position (line 49). -/
theorem find_nearby_airports_distance_col (s : AirportsState) (g : ℚ × ℚ)
    (t e : String) (n : ℕ) :
    (find_nearby_airports s g t e n).2.distance_col =
      some (s.rows.map fun a => sqDist a.geometry g) := by
  simp [find_nearby_airports]

/-- Normal form of the query result: pair the candidate rows (those
satisfying `qualifies`) with their squared distances and take the
`max_results` smallest. -/
theorem find_nearby_airports_fst_eq (s : AirportsState) (g : ℚ × ℚ)
    (t e : String) (n : ℕ) :
    (find_nearby_airports s g t e n).1 =
      nsmallest n ((s.rows.filter fun a => qualifies a t e).map
        fun a => (a, sqDist a.geometry g)) := by
  simp only [find_nearby_airports]
  by_cases h : t = "all"
  · rw [if_pos h, List.filter_map]
    have he : List.filter
          ((fun p : Airport × ℚ => decide (¬ p.1.code_oaci = e)) ∘
            fun a => (a, sqDist a.geometry g)) s.rows
        = List.filter (fun a => qualifies a t e) s.rows :=
      List.filter_congr (fun a _ => by simp [qualifies, Function.comp, h])
    rw [he]
  · rw [if_neg h, List.filter_filter, List.filter_map]
    have he : List.filter
          ((fun p : Airport × ℚ =>
              decide (p.1.type = t) && decide (¬ p.1.code_oaci = e)) ∘
            fun a => (a, sqDist a.geometry g)) s.rows
        = List.filter (fun a => qualifies a t e) s.rows :=
      List.filter_congr
        (fun a _ => by simp [qualifies, Function.comp, h, Bool.and_comm])
    rw [he]

/-- Every result entry is a candidate row of the collection paired with
its squared distance to the reference position. -/
theorem mem_find_nearby_airports {s : AirportsState} {g : ℚ × ℚ}
    {t e : String} {n : ℕ} {p : Airport × ℚ}
    (hp : p ∈ (find_nearby_airports s g t e n).1) :
    p.1 ∈ s.rows ∧ p.2 = sqDist p.1.geometry g ∧ qualifies p.1 t e = true := by
  rw [find_nearby_airports_fst_eq] at hp
  unfold nsmallest at hp
  have h1 := (List.take_sublist n _).mem hp
  rw [List.mem_mergeSort] at h1
  rcases List.mem_map.1 h1 with ⟨a, ha, rfl⟩
  rcases List.mem_filter.1 ha with ⟨har, haq⟩
  exact ⟨har, rfl, haq⟩

/-- The result is sorted ascending by the stored (squared) distance. -/
theorem find_nearby_airports_pairwise (s : AirportsState) (g : ℚ × ℚ)
    (t e : String) (n : ℕ) :
    ((find_nearby_airports s g t e n).1).Pairwise
      (fun p q : Airport × ℚ => p.2 ≤ q.2) := by
  rw [find_nearby_airports_fst_eq]
  unfold nsmallest
  have hs := @List.sorted_mergeSort _
    (fun p q : Airport × ℚ => decide (p.2 ≤ q.2))
    (fun a b c h1 h2 => by
      simp only [decide_eq_true_eq] at h1 h2 ⊢
      exact le_trans h1 h2)
    (fun a b => by
      simp only [Bool.or_eq_true, decide_eq_true_eq]
      exact le_total a.2 b.2)
    ((s.rows.filter fun a => qualifies a t e).map
      fun a => (a, sqDist a.geometry g))
  have hp := hs.sublist (List.take_sublist n _)
  exact hp.imp (fun h => by simpa using h)

/-- The result length is the minimum of the limit and the number of
candidate rows. -/
theorem find_nearby_airports_length (s : AirportsState) (g : ℚ × ℚ)
    (t e : String) (n : ℕ) :
    (find_nearby_airports s g t e n).1.length =
      min n (s.rows.filter fun a => qualifies a t e).length := by
  rw [find_nearby_airports_fst_eq]
  simp [nsmallest]

theorem sqDist_nonneg (g1 g2 : ℚ × ℚ) : 0 ≤ sqDist g1 g2 :=
  add_nonneg (mul_self_nonneg _) (mul_self_nonneg _)

/-- `Real.sqrt` is monotone on nonnegatives, so comparing two true
point distances is the same as comparing the squared distances the
engine stores. -/
theorem pointDistance_le_pointDistance (g1 g2 g : ℚ × ℚ) :
    pointDistance g1 g ≤ pointDistance g2 g ↔ sqDist g1 g ≤ sqDist g2 g := by
  unfold pointDistance
  rw [Real.sqrt_le_sqrt_iff (by exact_mod_cast sqDist_nonneg g2 g), Rat.cast_le]

unseal List.merge List.mergeSort Rat.add Rat.mul Rat.sub in
/-- C1 counterexample: the claim "queries never mutate the loaded
collection" is false.  On a one-airport collection with no `distance`
column, one query leaves the global frame with a `distance` column,
so the collection is not exactly as it was before the call. -/
theorem C1_query_mutates_state :
    (find_nearby_airports tinyState (0, 0) "all" "" 4).2 ≠ tinyState := by
  decide

/-- C1 (amended): the query does mutate the shared collection — it
overwrites the `distance` column with the distances from every row to
the reference (line 49) — but the airport rows themselves (codes,
names, kinds, positions) are left exactly as they were. -/
theorem C1_rows_unchanged (s : AirportsState) (g : ℚ × ℚ)
    (t e : String) (n : ℕ) :
    (find_nearby_airports s g t e n).2.rows = s.rows ∧
    (find_nearby_airports s g t e n).2.distance_col =
      some (s.rows.map fun a => sqDist a.geometry g) :=
  ⟨find_nearby_airports_rows s g t e n,
   find_nearby_airports_distance_col s g t e n⟩

/-- C2: for every query, the result sequence is sorted ascending by the
computed distance — for all adjacent result pairs `(p, q)`, the planar
distance of `p` to the reference is at most that of `q`. -/
theorem C2_sorted_by_distance (s : AirportsState) (g : ℚ × ℚ)
    (t e : String) (n : ℕ) :
    ((find_nearby_airports s g t e n).1).Chain'
      (fun p q => pointDistance p.1.geometry g ≤ pointDistance q.1.geometry g) := by
  have hp := find_nearby_airports_pairwise s g t e n
  refine List.Pairwise.chain' (List.Pairwise.imp_of_mem ?_ hp)
  intro p q hpm hqm hle
  have h1 := (mem_find_nearby_airports hpm).2.1
  have h2 := (mem_find_nearby_airports hqm).2.1
  rw [pointDistance_le_pointDistance, ← h1, ← h2]
  exact hle

/-- C10: repeated identical queries against the (possibly already
queried) collection return identical ordered results and leave the
global frame in the identical state: running the query a second time
with the same arguments, on the state produced by the first run,
reproduces the first result exactly — the sort is deterministic, so
equal-distance candidates keep a fixed (row) order. -/
theorem C10_deterministic (s : AirportsState) (g : ℚ × ℚ)
    (t e : String) (n : ℕ) :
    (find_nearby_airports (find_nearby_airports s g t e n).2 g t e n).1 =
      (find_nearby_airports s g t e n).1 ∧
    (find_nearby_airports (find_nearby_airports s g t e n).2 g t e n).2 =
      (find_nearby_airports s g t e n).2 :=
  ⟨rfl, rfl⟩

/-- A list without duplicates whose elements are all equal has at most
one element. -/
theorem length_le_one_of_nodup_of_all_eq {α : Type} {l : List α} {e : α}
    (hn : l.Nodup) (h : ∀ x ∈ l, x = e) : l.length ≤ 1 := by
  match l, hn, h with
  | [], _, _ => simp
  | [x], _, _ => simp
  | x :: y :: r, hn, h =>
    exfalso
    have hx : x = e := h x (by simp)
    have hy : y = e := h y (by simp)
    have := List.nodup_cons.1 hn
    exact this.1 (by simp [hx, hy])

/-- C3: when the type filter is a specific kind, every record in the
result has that kind; when it is the wildcard `"all"`, the kind filter
is not applied at all — the result is computed from the candidates that
survive only the code exclusion. -/
theorem C3_kind_filter (s : AirportsState) (g : ℚ × ℚ)
    (t e : String) (n : ℕ) :
    (¬ t = "all" → ∀ p ∈ (find_nearby_airports s g t e n).1, p.1.type = t) ∧
    (t = "all" → (find_nearby_airports s g t e n).1 =
      nsmallest n ((s.rows.filter fun a => decide (¬ a.code_oaci = e)).map
        fun a => (a, sqDist a.geometry g))) := by
  constructor
  · intro ht p hp
    have hq := (mem_find_nearby_airports hp).2.2
    simp [qualifies, ht] at hq
    exact hq.2
  · intro ht
    rw [find_nearby_airports_fst_eq]
    have he : (s.rows.filter fun a => qualifies a t e)
        = s.rows.filter fun a => decide (¬ a.code_oaci = e) :=
      List.filter_congr (fun a _ => by simp [qualifies, ht])
    rw [he]

unseal List.merge List.mergeSort Rat.add Rat.mul Rat.sub in
/-- C3 witness: on the Scenario collection, the query with type filter
`"medium_airport"` and exclusion `"AAA"` contains the record `B`, whose
kind is indeed `"medium_airport"`. -/
theorem C3_kind_filter_witness :
    ¬ ("medium_airport" : String) = "all" ∧
    (⟨⟨"BBB", "B", "medium_airport", 0, 1, "FR", (1, 0)⟩, (1 : ℚ)⟩ :
        Airport × ℚ).1.type = "medium_airport" :=
  ⟨by decide,
   (C3_kind_filter sampleState (0, 0) "medium_airport" "AAA" 4).1
     (by decide) _ (by decide)⟩

/-- C4: the result never contains a record whose code equals
`exclude_oaci`; and when the codes of the collection are pairwise distinct
(the data-model invariant), the exclusion removes at most one record
from candidacy. -/
theorem C4_exclusion (s : AirportsState) (g : ℚ × ℚ)
    (t e : String) (n : ℕ) :
    (∀ p ∈ (find_nearby_airports s g t e n).1, ¬ p.1.code_oaci = e) ∧
    ((s.rows.map fun a => a.code_oaci).Nodup →
      (s.rows.filter fun a => decide (a.code_oaci = e)).length ≤ 1) := by
  constructor
  · intro p hp
    have hq := (mem_find_nearby_airports hp).2.2
    simp [qualifies] at hq
    exact hq.1
  · intro hn
    have hsub : ((s.rows.filter fun a => decide (a.code_oaci = e)).map
        fun a => a.code_oaci).Sublist (s.rows.map fun a => a.code_oaci) :=
      (List.filter_sublist s.rows).map _
    have hnd := hn.sublist hsub
    have hall : ∀ x ∈ (s.rows.filter fun a => decide (a.code_oaci = e)).map
        (fun a => a.code_oaci), x = e := by
      intro x hx
      rcases List.mem_map.1 hx with ⟨a, ha, rfl⟩
      exact of_decide_eq_true (List.mem_filter.1 ha).2
    have := length_le_one_of_nodup_of_all_eq hnd hall
    simpa using this

unseal List.merge List.mergeSort Rat.add Rat.mul Rat.sub in
/-- C4 witness: on the Scenario collection with exclusion `"AAA"`, the
record `B` in the result has a code different from `"AAA"`, and with
pairwise-distinct codes the exclusion removes at most one row. -/
theorem C4_exclusion_witness :
    ¬ ("BBB" : String) = "AAA" ∧
    (sampleState.rows.filter fun a =>
      decide (a.code_oaci = "AAA")).length ≤ 1 :=
  ⟨(C4_exclusion sampleState (0, 0) "all" "AAA" 4).1
     ⟨⟨"BBB", "B", "medium_airport", 0, 1, "FR", (1, 0)⟩, (1 : ℚ)⟩ (by decide),
   (C4_exclusion sampleState (0, 0) "all" "AAA" 4).2 (by decide)⟩

/-- C5: the result never has more than `max_results` entries; it has
exactly `max_results` entries whenever at least that many rows survive
the exclusion and the type filter; and when no row survives, the result
is the empty list (a regular value, not an error). -/
theorem C5_result_length (s : AirportsState) (g : ℚ × ℚ)
    (t e : String) (n : ℕ) :
    (find_nearby_airports s g t e n).1.length ≤ n ∧
    (n ≤ (s.rows.filter fun a => qualifies a t e).length →
      (find_nearby_airports s g t e n).1.length = n) ∧
    ((s.rows.filter fun a => qualifies a t e).length = 0 →
      (find_nearby_airports s g t e n).1 = []) := by
  refine ⟨?_, ?_, ?_⟩
  · rw [find_nearby_airports_length]
    exact min_le_left _ _
  · intro h
    rw [find_nearby_airports_length]
    exact min_eq_left h
  · intro h
    refine List.length_eq_zero.1 ?_
    rw [find_nearby_airports_length, h]
    simp

/-- C5 witness: Scenario 4 — limit 1 with three qualifying candidates
gives exactly one result. -/
theorem C5_result_length_witness :
    (find_nearby_airports sampleState (0, 0) "all" "ZZZ" 1).1.length ≤ 1 ∧
    (find_nearby_airports sampleState (0, 0) "all" "ZZZ" 1).1.length = 1 :=
  ⟨(C5_result_length sampleState (0, 0) "all" "ZZZ" 1).1,
   (C5_result_length sampleState (0, 0) "all" "ZZZ" 1).2.1 (by decide)⟩

/-- C6: for a collection whose `geometry` column is `Point(lon, lat)`
(as the loader builds it on line 18), the distance the engine uses
between the reference position and each returned candidate is the
planar Euclidean distance on the raw degree values treated as Cartesian
coordinates — the stored ranking key is its square, and its square root
equals `sqrt ((lat1 - lat2)^2 + (lon1 - lon2)^2)` exactly; no geodesic
formula is involved. -/
theorem C6_planar_distance (s : AirportsState) (g : ℚ × ℚ)
    (t e : String) (n : ℕ)
    (hgeom : ∀ a ∈ s.rows, a.geometry = (a.lon, a.lat)) :
    ∀ p ∈ (find_nearby_airports s g t e n).1,
      p.2 = sqDist p.1.geometry g ∧
      pointDistance p.1.geometry g =
        spec_planar_distance p.1.lat p.1.lon g.2 g.1 := by
  intro p hp
  have hm := mem_find_nearby_airports hp
  refine ⟨hm.2.1, ?_⟩
  have hg := hgeom p.1 hm.1
  unfold pointDistance spec_planar_distance
  congr 1
  rw [hg]
  norm_cast
  unfold sqDist
  ring

unseal List.merge List.mergeSort Rat.add Rat.mul Rat.sub in
/-- C6 witness: on the Scenario collection, the entry for `B` in the
result of the query from the position of `A` carries the squared planar
distance `1`, and the true distance equals the spec formula on the raw
latitude/longitude values. -/
theorem C6_planar_distance_witness :
    (1 : ℚ) = sqDist (1, 0) (0, 0) ∧
    pointDistance (1, 0) (0, 0) = spec_planar_distance 0 1 0 0 :=
  C6_planar_distance sampleState (0, 0) "all" "AAA" 4 (by decide)
    ⟨⟨"BBB", "B", "medium_airport", 0, 1, "FR", (1, 0)⟩, (1 : ℚ)⟩ (by decide)

/-- C7 counterexample: a source row with an empty `code` is NOT skipped
by the load of lines 11-21 — it is loaded verbatim into the collection,
and the loader returns only the collection, with no skipped-row count. -/
theorem C7_empty_code_not_skipped :
    load_airports [⟨"", "Nowhere", "small_airport", 1, 2, "FR"⟩] =
      [⟨"", "Nowhere", "small_airport", 1, 2, "FR", (2, 1)⟩] := rfl

/-- C7 (amended): the load of lines 11-21 performs no row-level
validation at all: every source row is loaded (the collection has
exactly one record per source row, rows with empty codes included) and
each code is taken verbatim from the `ident` column.  No skipped-row
count exists, since nothing is ever skipped. -/
theorem C7_loader_keeps_all_rows (df : List CsvRow) :
    (load_airports df).length = df.length ∧
    (load_airports df).map (fun a => a.code_oaci) =
      df.map (fun r => r.ident) := by
  constructor
  · simp [load_airports]
  · simp [load_airports, List.map_map]

/-- C8 counterexample: the loader does not trim or uppercase codes and
`get_airport_info` matches codes exactly, so a source whose only row has
`ident = "lfmk"` does not answer the lookup of `"LFMK"`: the round-trip
fails for a code that is present in the source up to case. -/
theorem C8_no_case_normalization :
    get_airport_info
      (load_airports [⟨"lfmk", "Carcassonne", "medium_airport", 43, 2, "FR"⟩])
      "LFMK" = none := by
  decide

/-- C8 (amended): codes are loaded verbatim (no trimming, no
uppercasing) and lookup is an exact, case-sensitive string match: for
any code that appears verbatim as an `ident` in the source, lookup
returns the info dictionary of the first source row bearing exactly
that `ident`. -/
theorem C8_exact_lookup (df : List CsvRow) (c : String)
    (h : c ∈ df.map (fun r => r.ident)) :
    ∃ r ∈ df, r.ident = c ∧
      get_airport_info (load_airports df) c =
        some ⟨r.name, r.type, (r.longitude_deg, r.latitude_deg)⟩ := by
  induction df with
  | nil => simp at h
  | cons r rs ih =>
    by_cases hr : r.ident = c
    · refine ⟨r, by simp, hr, ?_⟩
      simp [get_airport_info, load_airports, hr]
    · have h' : c ∈ rs.map (fun r => r.ident) := by
        rcases List.mem_map.1 h with ⟨r', hr', hrc⟩
        rcases List.mem_cons.1 hr' with rfl | hr'
        · exact absurd hrc hr
        · exact List.mem_map.2 ⟨r', hr', hrc⟩
      rcases ih h' with ⟨r', hr', hrc, heq⟩
      refine ⟨r', List.mem_cons.2 (Or.inr hr'), hrc, ?_⟩
      rw [← heq]
      simp [get_airport_info, load_airports, hr]

/-- C8 witness: the lookup of `"LFMK"` on a one-row source whose
`ident` is exactly `"LFMK"` succeeds and returns the info of that row. -/
theorem C8_exact_lookup_witness :
    ∃ r ∈ [(⟨"LFMK", "Carcassonne", "medium_airport", 43, 2, "FR"⟩ : CsvRow)],
      r.ident = "LFMK" ∧
      get_airport_info
          (load_airports [⟨"LFMK", "Carcassonne", "medium_airport", 43, 2, "FR"⟩])
          "LFMK" =
        some ⟨r.name, r.type, (r.longitude_deg, r.latitude_deg)⟩ :=
  C8_exact_lookup [⟨"LFMK", "Carcassonne", "medium_airport", 43, 2, "FR"⟩]
    "LFMK" (by decide)

unseal List.merge List.mergeSort Rat.add Rat.mul Rat.sub in
/-- C9 counterexample: a reference position far outside the valid
latitude/longitude ranges is not rejected — `find_nearby_airports`
computes distances to it and returns an ordinary result, with no
`InvalidQuery` signal anywhere in the code. -/
theorem C9_out_of_range_not_rejected :
    (find_nearby_airports tinyState (999, 999) "all" "" 4).1 =
      [(⟨"AAA", "A", "large_airport", 0, 0, "FR", (0, 0)⟩, 1996002)] := by
  decide

/-- C9 (amended): the query engine validates nothing: for every
reference position, in range or not, distances are computed and a
result is returned whose entries carry the planar squared distance to
the given position; a limit of `0` yields the empty list as an
ordinary, non-error result. -/
theorem C9_no_input_validation (s : AirportsState) (g : ℚ × ℚ)
    (t e : String) (n : ℕ) :
    (∀ p ∈ (find_nearby_airports s g t e n).1,
      p.2 = sqDist p.1.geometry g) ∧
    (find_nearby_airports s g t e 0).1 = [] := by
  constructor
  · intro p hp
    exact (mem_find_nearby_airports hp).2.1
  · refine List.length_eq_zero.1 ?_
    rw [find_nearby_airports_length]
    simp

unseal List.merge List.mergeSort Rat.add Rat.mul Rat.sub in
/-- C9 witness: the out-of-range position `(999, 999)` gets a computed
(garbage) squared distance of `1996002` from the origin airport, and a
zero limit returns the empty list. -/
theorem C9_no_input_validation_witness :
    (1996002 : ℚ) = sqDist (0, 0) (999, 999) ∧
    (find_nearby_airports tinyState (999, 999) "all" "" 0).1 = [] :=
  ⟨(C9_no_input_validation tinyState (999, 999) "all" "" 4).1
     ⟨⟨"AAA", "A", "large_airport", 0, 0, "FR", (0, 0)⟩, (1996002 : ℚ)⟩
     (by decide),
   (C9_no_input_validation tinyState (999, 999) "all" "" 4).2⟩
